import Mathlib

/-!
Shallow embedding of the `either` Rust crate (src/lib.rs): the two-case
sum type `Either` with variants `Left` and `Right`, its combinators, the
derived comparison, the `Result` conversions, the iterator delegation
layer, and the early-return helpers.  Each definition mirrors the match
arms of the corresponding Rust function.
-/

namespace EitherCrate

/-- The enum `Either` with variants `Left` and `Right` (src/lib.rs lines 51-56). -/
inductive Either (L R : Type) : Type where
  | Left (l : L) : Either L R
  | Right (r : R) : Either L R
deriving DecidableEq, Repr

open Either

/-- Rust `Result` as used by the conversion layer: `Ok` and `Err`. -/
inductive Result (T E : Type) : Type where
  | Ok (t : T) : Result T E
  | Err (e : E) : Result T E
deriving DecidableEq, Repr

/-- Return true if the value is the `Left` variant (src/lib.rs lines 121-126). -/
def Either.is_left : Either L R → Bool
  | Left _ => true
  | Right _ => false

/-- Return true if the value is the `Right` variant (src/lib.rs lines 137-139). -/
def Either.is_right (e : Either L R) : Bool :=
  !e.is_left

/-- Convert the left side of `Either L R` to an `Option L` (src/lib.rs lines 152-157). -/
def Either.left : Either L R → Option L
  | Left l => some l
  | Right _ => none

/-- Convert the right side of `Either L R` to an `Option R` (src/lib.rs lines 170-175). -/
def Either.right : Either L R → Option R
  | Left _ => none
  | Right r => some r

/-- Convert `Either L R` to `Either R L` (src/lib.rs lines 231-236). -/
def Either.flip : Either L R → Either R L
  | Left l => Right l
  | Right r => Left r

/-- Apply `f` on the value in the `Left` variant if present, rewrapping in `Left`
(src/lib.rs lines 250-257). -/
def Either.map_left (f : L → M) : Either L R → Either M R
  | Left l => Left (f l)
  | Right r => Right r

/-- Apply `f` on the value in the `Right` variant if present, rewrapping in `Right`
(src/lib.rs lines 271-278). -/
def Either.map_right (f : R → S) : Either L R → Either L S
  | Left l => Left l
  | Right r => Right (f r)

/-- Apply one of two functions depending on contents, unifying their result
(src/lib.rs lines 296-304). -/
def Either.either (e : Either L R) (f : L → T) (g : R → T) : T :=
  match e with
  | Left l => f l
  | Right r => g r

/-- Like `either`, but provide some context to whichever function ends up
being called (src/lib.rs lines 325-333). -/
def Either.either_with (e : Either L R) (ctx : Ctx) (f : Ctx → L → T) (g : Ctx → R → T) : T :=
  match e with
  | Left l => f ctx l
  | Right r => g ctx r

/-- Factor out a homogeneous first pair component (src/lib.rs lines 409-414). -/
def Either.factor_first : Either (T × L) (T × R) → T × Either L R
  | Left (t, l) => (t, Left l)
  | Right (t, r) => (t, Right r)

/-- Factor out a homogeneous second pair component (src/lib.rs lines 430-435). -/
def Either.factor_second : Either (L × T) (R × T) → Either L R × T
  | Left (l, t) => (Left l, t)
  | Right (r, t) => (Right r, t)

/-- Convert from `Result` to `Either` with `Ok => Right` and `Err => Left`
(src/lib.rs lines 456-463). -/
def Either.from_result : Result R L → Either L R
  | Result.Err e => Left e
  | Result.Ok o => Right o

/-- Convert from `Either` to `Result` with `Right => Ok` and `Left => Err`
(src/lib.rs lines 466-473). -/
def Either.into_result : Either L R → Result R L
  | Left l => Result.Err l
  | Right r => Result.Ok r

/-- Derived positional comparison of the `derive(PartialOrd, Ord)` on `Either`
(src/lib.rs line 50): variants compare by declaration order first, payloads
by the given payload comparisons when the variants coincide. -/
def Either.cmp (cmpL : L → L → Ordering) (cmpR : R → R → Ordering) :
    Either L R → Either L R → Ordering
  | Left a, Left b => cmpL a b
  | Left _, Right _ => Ordering.lt
  | Right _, Left _ => Ordering.gt
  | Right a, Right b => cmpR a b

/-- Derived structural equality test of the `derive(PartialEq)` on `Either`
(src/lib.rs line 50): equal variants, payloads tested by the given payload
equality tests. -/
def Either.beq (beqL : L → L → Bool) (beqR : R → R → Bool) :
    Either L R → Either L R → Bool
  | Left a, Left b => beqL a b
  | Left _, Right _ => false
  | Right _, Left _ => false
  | Right a, Right b => beqR a b

/-- Iterator `next` forwarded to the active branch (src/lib.rs lines 491-493):
each branch payload carries its own stateful `next`, modelled as a step
function returning the produced item and the successor state. -/
def Either.next (nextL : L → Option I × L) (nextR : R → Option I × R) :
    Either L R → Option I × Either L R
  | Left l =>
      let p := nextL l
      (p.1, Left p.2)
  | Right r =>
      let p := nextR r
      (p.1, Right p.2)

/-- Iterator `count` forwarded to the active branch (src/lib.rs lines 505-507). -/
def Either.count (countL : L → Nat) (countR : R → Nat) : Either L R → Nat
  | Left l => countL l
  | Right r => countR r

/-- Iterator `fold` forwarded to the active branch (src/lib.rs lines 499-503). -/
def Either.fold (foldL : A → L → A) (foldR : A → R → A)
    (init : A) : Either L R → A
  | Left l => foldL init l
  | Right r => foldR init r

/-- Iterator `last` forwarded to the active branch (src/lib.rs lines 509-511). -/
def Either.last (lastL : L → Option I) (lastR : R → Option I) : Either L R → Option I
  | Left l => lastL l
  | Right r => lastR r

/-- Iterator `size_hint` forwarded to the active branch (src/lib.rs lines 495-497):
a lower bound and an optional upper bound on the remaining length. -/
def Either.size_hint (shL : L → Nat × Option Nat) (shR : R → Nat × Option Nat) :
    Either L R → Nat × Option Nat
  | Left l => shL l
  | Right r => shR r

/-- Iterator `nth` forwarded to the active branch (src/lib.rs lines 513-515):
each branch advances its own state and yields the item found, if any. -/
def Either.nth (nthL : L → Nat → Option I × L) (nthR : R → Nat → Option I × R)
    (n : Nat) : Either L R → Option I × Either L R
  | Left l =>
      let p := nthL l n
      (p.1, Left p.2)
  | Right r =>
      let p := nthR r n
      (p.1, Right p.2)

/-- Iterator `collect` forwarded to the active branch (src/lib.rs lines 517-521). -/
def Either.collect (collectL : L → B) (collectR : R → B) : Either L R → B
  | Left l => collectL l
  | Right r => collectR r

/-- Short-circuiting `all` forwarded to the active branch (src/lib.rs lines
523-527): each branch tests the predicate over its own items, updating its
own state. -/
def Either.all (allL : (I → Bool) → L → Bool × L) (allR : (I → Bool) → R → Bool × R)
    (f : I → Bool) : Either L R → Bool × Either L R
  | Left l =>
      let p := allL f l
      (p.1, Left p.2)
  | Right r =>
      let p := allR f r
      (p.1, Right p.2)

/-- Rust `Range` over naturals, `start..stop`, the iterator used by the
`iter` test of the crate (src/lib.rs lines 701-711). -/
structure Range : Type where
  start : Nat
  stop : Nat
deriving DecidableEq, Repr

/-- The `next` step of a Rust `Range` iterator: yield `start` and advance
while `start < stop`, otherwise yield nothing. -/
def Range.next (r : Range) : Option Nat × Range :=
  if r.start < r.stop then (some r.start, ⟨r.start + 1, r.stop⟩)
  else (none, r)

/-- The `count` of a Rust `Range` iterator: the number of remaining elements. -/
def Range.count (r : Range) : Nat :=
  r.stop - r.start

/-- The `try_left!` early-return helper (src/lib.rs lines 91-98), modelled as a
function on the scrutinised `Either`: on `Left val` the enclosing computation
continues with `val` bound (the continuation `k` runs); on `Right err` the
enclosing computation returns `Right (conv err)` immediately, `k` never runs. -/
def try_left_run (conv : R → R2) (k : L → Either L2 R2) :
    Either L R → Either L2 R2
  | Left val => k val
  | Right err => Right (conv err)

/-- The `try_right!` early-return helper (src/lib.rs lines 102-109), the mirror
image of `try_left_run`. -/
def try_right_run (conv : L → L2) (k : R → Either L2 R2) :
    Either L R → Either L2 R2
  | Left err => Left (conv err)
  | Right val => k val

end EitherCrate

namespace EitherCrate

open Either

/-- C1: sequence-production delegation. Every iterator operation on an
`Either` is forwarded unchanged to the active branch: `next`, `size_hint`,
`fold`, `count`, `last`, `nth`, `collect` and the short-circuiting `all`
check on either branch run the inner iterator's own operation, with the
stateful ones rewrapping the successor state in the same branch. Concretely,
for an `Either` holding in its first branch the range iterator producing 0
through 9, one `next` yields `some 0` and `count` on the remainder yields 9. -/
theorem iterator_delegation :
    (∀ (L R I : Type) (nextL : L → Option I × L) (nextR : R → Option I × R)
       (l : L) (r : R),
       Either.next nextL nextR (Left l) = ((nextL l).1, Left (nextL l).2) ∧
       Either.next nextL nextR (Right r) = ((nextR r).1, Right (nextR r).2)) ∧
    (∀ (L R : Type) (shL : L → Nat × Option Nat) (shR : R → Nat × Option Nat)
       (l : L) (r : R),
       Either.size_hint shL shR (Left l) = shL l ∧
       Either.size_hint shL shR (Right r) = shR r) ∧
    (∀ (L R A : Type) (foldL : A → L → A) (foldR : A → R → A)
       (init : A) (l : L) (r : R),
       Either.fold foldL foldR init (Left l) = foldL init l ∧
       Either.fold foldL foldR init (Right r) = foldR init r) ∧
    (∀ (L R : Type) (countL : L → Nat) (countR : R → Nat) (l : L) (r : R),
       Either.count countL countR (Left l) = countL l ∧
       Either.count countL countR (Right r) = countR r) ∧
    (∀ (L R I : Type) (lastL : L → Option I) (lastR : R → Option I) (l : L) (r : R),
       Either.last lastL lastR (Left l) = lastL l ∧
       Either.last lastL lastR (Right r) = lastR r) ∧
    (∀ (L R I : Type) (nthL : L → Nat → Option I × L) (nthR : R → Nat → Option I × R)
       (n : Nat) (l : L) (r : R),
       Either.nth nthL nthR n (Left l) = ((nthL l n).1, Left (nthL l n).2) ∧
       Either.nth nthL nthR n (Right r) = ((nthR r n).1, Right (nthR r n).2)) ∧
    (∀ (L R B : Type) (collectL : L → B) (collectR : R → B) (l : L) (r : R),
       Either.collect collectL collectR (Left l) = collectL l ∧
       Either.collect collectL collectR (Right r) = collectR r) ∧
    (∀ (L R I : Type) (allL : (I → Bool) → L → Bool × L)
       (allR : (I → Bool) → R → Bool × R) (f : I → Bool) (l : L) (r : R),
       Either.all allL allR f (Left l) = ((allL f l).1, Left (allL f l).2) ∧
       Either.all allL allR f (Right r) = ((allR f r).1, Right (allR f r).2)) ∧
    ((Either.next Range.next Range.next
        (Left (⟨0, 10⟩ : Range) : Either Range Range)).1 = some 0 ∧
     Either.count Range.count Range.count
        (Either.next Range.next Range.next
          (Left (⟨0, 10⟩ : Range) : Either Range Range)).2 = 9) := by
  refine ⟨?_, ?_, ?_, ?_, ?_, ?_, ?_, ?_, ?_⟩
  · intro L R I nextL nextR l r
    exact ⟨rfl, rfl⟩
  · intro L R shL shR l r
    exact ⟨rfl, rfl⟩
  · intro L R A foldL foldR init l r
    exact ⟨rfl, rfl⟩
  · intro L R countL countR l r
    exact ⟨rfl, rfl⟩
  · intro L R I lastL lastR l r
    exact ⟨rfl, rfl⟩
  · intro L R I nthL nthR n l r
    exact ⟨rfl, rfl⟩
  · intro L R B collectL collectR l r
    exact ⟨rfl, rfl⟩
  · intro L R I allL allR f l r
    exact ⟨rfl, rfl⟩
  · exact ⟨rfl, rfl⟩

/-- C2: conversion round-trip with `Result`. `Err` maps to `Left`, `Ok` maps
to `Right`; converting a `Result` to an `Either` and back is the identity,
and converting an `Either` to a `Result` and back is the identity. -/
theorem result_round_trip :
    (∀ (L R : Type) (e : L), Either.from_result (Result.Err e : Result R L) = Left e) ∧
    (∀ (L R : Type) (o : R), Either.from_result (Result.Ok o : Result R L) = Right o) ∧
    (∀ (L R : Type) (x : Result R L), Either.into_result (Either.from_result x) = x) ∧
    (∀ (L R : Type) (e : Either L R), Either.from_result (Either.into_result e) = e) := by
  refine ⟨fun L R e => rfl, fun L R o => rfl, ?_, ?_⟩
  · intro L R x
    cases x <;> rfl
  · intro L R e
    cases e <;> rfl

/-- C3: `flip` is an involution and swaps the branches keeping the payload:
`flip (Left l) = Right l`, `flip (Right r) = Left r`, and flipping twice
returns the original value. -/
theorem flip_involution :
    (∀ (L R : Type) (l : L), Either.flip (Left l : Either L R) = Right l) ∧
    (∀ (L R : Type) (r : R), Either.flip (Right r : Either L R) = Left r) ∧
    (∀ (L R : Type) (e : Either L R), Either.flip (Either.flip e) = e) := by
  refine ⟨fun L R l => rfl, fun L R r => rfl, ?_⟩
  intro L R e
  cases e <;> rfl

/-- C4: eliminator correctness. `either (Left l) f g = f l`,
`either (Right r) f g = g r`, and `either_with` passes the context value
unmodified as the first argument of whichever function fires. -/
theorem eliminator_correct :
    (∀ (L R T : Type) (f : L → T) (g : R → T) (l : L),
       Either.either (Left l : Either L R) f g = f l) ∧
    (∀ (L R T : Type) (f : L → T) (g : R → T) (r : R),
       Either.either (Right r : Either L R) f g = g r) ∧
    (∀ (L R Ctx T : Type) (ctx : Ctx) (f : Ctx → L → T) (g : Ctx → R → T) (l : L),
       Either.either_with (Left l : Either L R) ctx f g = f ctx l) ∧
    (∀ (L R Ctx T : Type) (ctx : Ctx) (f : Ctx → L → T) (g : Ctx → R → T) (r : R),
       Either.either_with (Right r : Either L R) ctx f g = g ctx r) :=
  ⟨fun _ _ _ _ _ _ => rfl, fun _ _ _ _ _ _ => rfl,
   fun _ _ _ _ _ _ _ _ => rfl, fun _ _ _ _ _ _ _ _ => rfl⟩

/-- C5: exclusivity and exhaustiveness. For every `Either` value exactly one
of `left e` and `right e` is `some`; `is_left e` holds exactly when `left e`
is `some`, and `is_left` and `is_right` are mutually exclusive and
exhaustive. -/
theorem branch_exclusivity :
    ∀ (L R : Type) (e : Either L R),
      (((Either.left e).isSome && (Either.right e).isSome) = false) ∧
      (((Either.left e).isSome || (Either.right e).isSome) = true) ∧
      (Either.is_left e = (Either.left e).isSome) ∧
      (Either.is_right e = !Either.is_left e) := by
  intro L R e
  cases e <;> exact ⟨rfl, rfl, rfl, rfl⟩

/-- C6: branch-locality of mapping. `map_left f (Right r) = Right r` with `r`
untouched and `f` never invoked, and symmetrically
`map_right f (Left l) = Left l`. -/
theorem map_branch_local :
    (∀ (L R M : Type) (f : L → M) (r : R),
       Either.map_left f (Right r : Either L R) = Right r) ∧
    (∀ (L R S : Type) (f : R → S) (l : L),
       Either.map_right f (Left l : Either L R) = Left l) :=
  ⟨fun _ _ _ _ _ => rfl, fun _ _ _ _ _ => rfl⟩

/-- C7: early-return helper. `try_left_run` applied to `Right 1337` terminates
the enclosing computation immediately with `Right (conv 1337)` no matter what
the continuation is, so no subsequent step runs; applied to `Left x` the
computation continues as the continuation applied to `x`. -/
theorem try_left_short_circuits :
    (∀ (conv : Nat → Nat) (k : Nat → Either Nat Nat),
       try_left_run conv k (Right 1337 : Either Nat Nat) = Right (conv 1337)) ∧
    (∀ (L R L2 R2 : Type) (conv : R → R2) (k : L → Either L2 R2)
       (r : R), try_left_run conv k (Right r : Either L R) = Right (conv r)) ∧
    (∀ (L R L2 R2 : Type) (conv : R → R2) (k : L → Either L2 R2)
       (x : L), try_left_run conv k (Left x : Either L R) = k x) ∧
    (∀ (L R L2 R2 : Type) (conv : L → L2) (k : R → Either L2 R2)
       (l : L), try_right_run conv k (Left l : Either L R) = Left (conv l)) ∧
    (∀ (L R L2 R2 : Type) (conv : L → L2) (k : R → Either L2 R2)
       (x : R), try_right_run conv k (Right x : Either L R) = k x) :=
  ⟨fun _ _ => rfl, fun _ _ _ _ _ _ _ => rfl, fun _ _ _ _ _ _ _ => rfl,
   fun _ _ _ _ _ _ _ => rfl, fun _ _ _ _ _ _ _ => rfl⟩

/-- C8: derived ordering tie-break. Under the derived positional comparison a
`Left` payload always compares strictly less than a `Right` payload whatever
the payload values, and the derived equality test succeeds only on equal
variants with payloads their own equality test accepts. -/
theorem ordering_tie_break :
    (∀ (L R : Type) (cmpL : L → L → Ordering) (cmpR : R → R → Ordering) (l : L) (r : R),
       Either.cmp cmpL cmpR (Left l) (Right r) = Ordering.lt ∧
       Either.cmp cmpL cmpR (Right r) (Left l) = Ordering.gt) ∧
    (∀ (L R : Type) (beqL : L → L → Bool) (beqR : R → R → Bool),
       (∀ (l : L) (r : R), Either.beq beqL beqR (Left l) (Right r) = false) ∧
       (∀ (l : L) (r : R), Either.beq beqL beqR (Right r) (Left l) = false) ∧
       (∀ (a b : L), Either.beq beqL beqR (Left a : Either L R) (Left b) = beqL a b) ∧
       (∀ (a b : R), Either.beq beqL beqR (Right a : Either L R) (Right b) = beqR a b)) :=
  ⟨fun _ _ _ _ _ _ => ⟨rfl, rfl⟩,
   fun _ _ _ _ => ⟨fun _ _ => rfl, fun _ _ => rfl, fun _ _ => rfl, fun _ _ => rfl⟩⟩

/-- C9: factoring correctness. `factor_first` returns the shared first pair
component together with an `Either` carrying the remaining component in the
same branch as the input, and `factor_second` does the same for the shared
second component. -/
theorem factoring_correct :
    (∀ (T L R : Type) (t : T) (l : L),
       Either.factor_first (Left (t, l) : Either (T × L) (T × R)) = (t, Left l)) ∧
    (∀ (T L R : Type) (t : T) (r : R),
       Either.factor_first (Right (t, r) : Either (T × L) (T × R)) = (t, Right r)) ∧
    (∀ (T L R : Type) (t : T) (l : L),
       Either.factor_second (Left (l, t) : Either (L × T) (R × T)) = (Left l, t)) ∧
    (∀ (T L R : Type) (t : T) (r : R),
       Either.factor_second (Right (r, t) : Either (L × T) (R × T)) = (Right r, t)) :=
  ⟨fun _ _ _ _ _ => rfl, fun _ _ _ _ _ => rfl,
   fun _ _ _ _ _ => rfl, fun _ _ _ _ _ => rfl⟩

/-- C10: constructor/eliminator round-trip. Eliminating an `Either` with the
two constructors reconstructs the value exactly: `either e Left Right = e`. -/
theorem either_constructors_id :
    ∀ (L R : Type) (e : Either L R), Either.either e Left Right = e := by
  intro L R e
  cases e <;> rfl

end EitherCrate
